import Mathlib

/-!
Verification of the arctanwines-crm repository's migration and dashboard layer.

The definitions below are shallow embeddings of:
* the Alembic revision `56fcd8e31e43` ("Add simple wine batch model"):
  its `upgrade()` / `downgrade()` DDL, the column definitions of the tables it
  creates, and the foreign keys it declares;
* the `expectedSchema` table/column catalogue and the `checkSchemaStatus`
  classification of the database dashboard (`app/dashboard` page);
* the request-dispatch logic of `local-api-server.js`
  (`extractPathParams`, `createDynamicRequestHandler`, the 404 fallback);
* the pre-commit guard, Lambda-compatibility checker, migration runner and
  fixture harness, whose Python sources are not in the repository snapshot:
  those are modelled from the specification and documentation
  (each such definition is marked `Modelled from the spec:`).
-/

/-! ## Column types and column definitions (from the Alembic DDL) -/

/-- SQLAlchemy column types that appear in revision 56fcd8e31e43. -/
inductive ColType where
  | intCol
  | stringCol (len : Nat)
  | textCol
  | decimalCol (precision scale : Nat)
  | dateCol
  | dateTimeCol
  | boolCol
  | guidCol
  | enumCol (values : List String)
  deriving DecidableEq, Repr

/-- One `sa.Column(...)` declaration: name, type, nullability. -/
structure ColumnDef where
  name : String
  ctype : ColType
  nullable : Bool
  deriving DecidableEq, Repr

/-- `op.create_table('suppliers', ...)` of revision 56fcd8e31e43. -/
def suppliersCols : List ColumnDef := [
  ⟨"name", .stringCol 255, false⟩,
  ⟨"country", .stringCol 100, false⟩,
  ⟨"contact_person", .stringCol 255, true⟩,
  ⟨"email", .stringCol 255, true⟩,
  ⟨"phone", .stringCol 50, true⟩,
  ⟨"payment_terms", .intCol, true⟩,
  ⟨"currency", .stringCol 3, true⟩,
  ⟨"tax_id", .stringCol 50, true⟩,
  ⟨"id", .guidCol, false⟩,
  ⟨"created_at", .dateTimeCol, false⟩,
  ⟨"updated_at", .dateTimeCol, false⟩,
  ⟨"active", .boolCol, false⟩]

/-- `op.create_table('wines', ...)` of revision 56fcd8e31e43. -/
def winesCols : List ColumnDef := [
  ⟨"name", .stringCol 255, false⟩,
  ⟨"producer", .stringCol 255, false⟩,
  ⟨"region", .stringCol 255, true⟩,
  ⟨"country", .stringCol 100, false⟩,
  ⟨"vintage", .intCol, true⟩,
  ⟨"grape_varieties", .textCol, true⟩,
  ⟨"alcohol_content", .decimalCol 4 2, true⟩,
  ⟨"bottle_size_ml", .intCol, true⟩,
  ⟨"product_category", .stringCol 50, true⟩,
  ⟨"tasting_notes", .textCol, true⟩,
  ⟨"serving_temperature", .stringCol 50, true⟩,
  ⟨"food_pairing", .textCol, true⟩,
  ⟨"organic", .boolCol, true⟩,
  ⟨"biodynamic", .boolCol, true⟩,
  ⟨"fiken_product_id", .intCol, true⟩,
  ⟨"id", .guidCol, false⟩,
  ⟨"created_at", .dateTimeCol, false⟩,
  ⟨"updated_at", .dateTimeCol, false⟩,
  ⟨"active", .boolCol, false⟩]

/-- `op.create_table('wine_batch_costs', ...)` of revision 56fcd8e31e43. -/
def wineBatchCostsCols : List ColumnDef := [
  ⟨"batch_id", .guidCol, false⟩,
  ⟨"cost_type", .stringCol 50, false⟩,
  ⟨"amount_ore", .intCol, false⟩,
  ⟨"currency", .stringCol 3, false⟩,
  ⟨"fiken_account_code", .stringCol 20, true⟩,
  ⟨"payment_date", .dateCol, true⟩,
  ⟨"allocation_method", .stringCol 30, true⟩,
  ⟨"invoice_reference", .stringCol 100, true⟩,
  ⟨"id", .guidCol, false⟩,
  ⟨"created_at", .dateTimeCol, false⟩,
  ⟨"updated_at", .dateTimeCol, false⟩,
  ⟨"active", .boolCol, false⟩]

/-- `op.create_table('wine_inventory', ...)` of revision 56fcd8e31e43. -/
def wineInventoryCols : List ColumnDef := [
  ⟨"wine_id", .guidCol, false⟩,
  ⟨"batch_id", .guidCol, true⟩,
  ⟨"quantity_available", .intCol, false⟩,
  ⟨"cost_per_bottle_ore", .intCol, false⟩,
  ⟨"selling_price_ore", .intCol, false⟩,
  ⟨"minimum_stock_level", .intCol, true⟩,
  ⟨"location", .stringCol 100, true⟩,
  ⟨"best_before_date", .stringCol 10, true⟩,
  ⟨"id", .guidCol, false⟩,
  ⟨"created_at", .dateTimeCol, false⟩,
  ⟨"updated_at", .dateTimeCol, false⟩,
  ⟨"active", .boolCol, false⟩]

/-- The nine `op.add_column('wine_batches', ...)` statements of the revision. -/
def wineBatchesAddedCols : List ColumnDef := [
  ⟨"import_date", .dateCol, false⟩,
  ⟨"supplier_id", .guidCol, true⟩,
  ⟨"eur_exchange_rate", .decimalCol 10 6, false⟩,
  ⟨"wine_cost_eur_cents", .intCol, false⟩,
  ⟨"transport_cost_ore", .intCol, true⟩,
  ⟨"customs_fee_ore", .intCol, true⟩,
  ⟨"freight_forwarding_ore", .intCol, true⟩,
  ⟨"fiken_sync_status", .stringCol 20, true⟩,
  ⟨"active", .boolCol, false⟩]

/-- Declared type of a named column in a column list. -/
def declaredType (cols : List ColumnDef) (n : String) : Option ColType :=
  (cols.find? (fun c => c.name == n)).map (fun c => c.ctype)

/-- Whether a column type is a floating-point / decimal type. -/
def ColType.isDecimal : ColType → Bool
  | .decimalCol _ _ => true
  | _ => false

/-! ## Stored values and row validity against the DDL -/

/-- A stored SQL value.  Decimals are scaled integers (no floating point). -/
inductive DbValue where
  | intV (i : Int)
  | strV (s : String)
  | boolV (b : Bool)
  | dateV (s : String)
  | decimalV (unscaled : Int) (scale : Nat)
  | guidV (s : String)
  | nullV
  deriving DecidableEq, Repr

/-- Does a non-null value inhabit a declared column type? -/
def valueMatches : ColType → DbValue → Bool
  | .intCol, .intV _ => true
  | .stringCol n, .strV s => s.length ≤ n
  | .textCol, .strV _ => true
  | .decimalCol _ _, .decimalV _ _ => true
  | .dateCol, .dateV _ => true
  | .dateTimeCol, .dateV _ => true
  | .boolCol, .boolV _ => true
  | .guidCol, .guidV _ => true
  | .enumCol vs, .strV s => vs.contains s
  | _, _ => false

/-- A stored row: a value for each column, keyed by column name. -/
abbrev DbRow := List (String × DbValue)

/-- The value a row stores under a column name (first binding wins). -/
def lookupVal (row : DbRow) (n : String) : Option DbValue :=
  (row.find? (fun e => e.1 == n)).map (fun e => e.2)

/-- One column's constraint check against a row: the row must bind the
column; `NULL` is allowed exactly for nullable columns; otherwise the stored
value must inhabit the declared type. -/
def colOk (row : DbRow) (c : ColumnDef) : Bool :=
  match lookupVal row c.name with
  | none => false
  | some .nullV => c.nullable
  | some v => valueMatches c.ctype v

/-- A row is valid for a table iff every declared column checks out and the
row binds no undeclared column. -/
def rowValid (cols : List ColumnDef) (row : DbRow) : Bool :=
  cols.all (colOk row) && row.all (fun e => cols.any (fun c => c.name == e.1))

/-- Is an optional stored value a non-negative integer (NULL tolerated)? -/
def monetaryNonNeg : Option DbValue → Bool
  | some (.intV i) => decide (0 ≤ i)
  | some .nullV => true
  | _ => false

/-- The persisted monetary fields named by the specification, with the column
list of the table each one lives in (all from revision 56fcd8e31e43). -/
def monetaryFields : List (String × List ColumnDef × String) := [
  ("wine_batch_costs", wineBatchCostsCols, "amount_ore"),
  ("wine_inventory", wineInventoryCols, "cost_per_bottle_ore"),
  ("wine_inventory", wineInventoryCols, "selling_price_ore"),
  ("wine_batches", wineBatchesAddedCols, "wine_cost_eur_cents"),
  ("wine_batches", wineBatchesAddedCols, "transport_cost_ore"),
  ("wine_batches", wineBatchesAddedCols, "customs_fee_ore"),
  ("wine_batches", wineBatchesAddedCols, "freight_forwarding_ore")]

/-! ## Foreign keys declared by revision 56fcd8e31e43 -/

/-- A `sa.ForeignKeyConstraint` / `op.create_foreign_key` declaration.
`onDelete` records the `ondelete` argument; the revision passes none. -/
structure FKDef where
  table : String
  column : String
  refTable : String
  refColumn : String
  onDelete : Option String
  deriving DecidableEq, Repr

/-- Every foreign key declared by revision 56fcd8e31e43, in source order. -/
def migrationForeignKeys : List FKDef := [
  ⟨"wine_batch_costs", "batch_id", "wine_batches", "id", none⟩,
  ⟨"wine_inventory", "batch_id", "wine_batches", "id", none⟩,
  ⟨"wine_inventory", "wine_id", "wines", "id", none⟩,
  ⟨"wine_batches", "supplier_id", "suppliers", "id", none⟩]

/-! ## The migration operations of revision 56fcd8e31e43

Column presence is what the round-trip claim is about, so the schema state
tracks, per table, the list of column names.  Index and constraint
operations leave column presence unchanged but are kept in the op list in
source order so the embedded `upgrade()` / `downgrade()` mirror the revision
statement by statement. -/

/-- One Alembic operation, at the column-presence level. -/
inductive MigOp where
  | createTable (t : String) (cols : List String)
  | dropTable (t : String)
  | addColumn (t : String) (c : String)
  | dropColumn (t : String) (c : String)
  | alterColumn (t : String) (c : String)
  | createIndex (idx : String) (t : String)
  | dropIndex (idx : String) (t : String)
  | createUniqueConstraint (t : String) (cols : List String)
  | dropUniqueConstraint (t : String)
  | createForeignKey (t : String) (refT : String) (cols refCols : List String)
  | dropForeignKey (t : String)
  deriving DecidableEq, Repr

/-- A schema as the claim sees it: which columns are present on which table. -/
abbrev Schema := List (String × List String)

/-- Apply one operation to a schema (column-presence semantics). -/
def applyOp (s : Schema) : MigOp → Schema
  | .createTable t cols => s ++ [(t, cols)]
  | .dropTable t => s.filter (fun e => e.1 ≠ t)
  | .addColumn t c => s.map (fun e => if e.1 = t then (e.1, e.2 ++ [c]) else e)
  | .dropColumn t c =>
      s.map (fun e => if e.1 = t then (e.1, e.2.filter (fun x => x ≠ c)) else e)
  | _ => s

/-- Apply a list of operations left to right. -/
def applyOps (s : Schema) (ops : List MigOp) : Schema := ops.foldl applyOp s

/-- The statements of `upgrade()` of revision 56fcd8e31e43, in source order. -/
def upgradeOps : List MigOp := [
  .createTable "suppliers" (suppliersCols.map ColumnDef.name),
  .createTable "wines" (winesCols.map ColumnDef.name),
  .createTable "wine_batch_costs" (wineBatchCostsCols.map ColumnDef.name),
  .createTable "wine_inventory" (wineInventoryCols.map ColumnDef.name),
  .addColumn "wine_batches" "import_date",
  .addColumn "wine_batches" "supplier_id",
  .addColumn "wine_batches" "eur_exchange_rate",
  .addColumn "wine_batches" "wine_cost_eur_cents",
  .addColumn "wine_batches" "transport_cost_ore",
  .addColumn "wine_batches" "customs_fee_ore",
  .addColumn "wine_batches" "freight_forwarding_ore",
  .addColumn "wine_batches" "fiken_sync_status",
  .addColumn "wine_batches" "active",
  .alterColumn "wine_batches" "status",
  .dropIndex "idx_wine_batch_status" "wine_batches",
  .dropIndex "ix_wine_batches_batch_number" "wine_batches",
  .dropIndex "ix_wine_batches_wine_name" "wine_batches",
  .createUniqueConstraint "wine_batches" ["batch_number"],
  .createForeignKey "wine_batches" "suppliers" ["supplier_id"] ["id"],
  .dropColumn "wine_batches" "total_cost_nok_ore",
  .dropColumn "wine_batches" "target_price_nok_ore",
  .dropColumn "wine_batches" "producer",
  .dropColumn "wine_batches" "wine_name"]

/-- The statements of `downgrade()` of revision 56fcd8e31e43, in source order. -/
def downgradeOps : List MigOp := [
  .addColumn "wine_batches" "wine_name",
  .addColumn "wine_batches" "producer",
  .addColumn "wine_batches" "target_price_nok_ore",
  .addColumn "wine_batches" "total_cost_nok_ore",
  .dropForeignKey "wine_batches",
  .dropUniqueConstraint "wine_batches",
  .createIndex "ix_wine_batches_wine_name" "wine_batches",
  .createIndex "ix_wine_batches_batch_number" "wine_batches",
  .createIndex "idx_wine_batch_status" "wine_batches",
  .alterColumn "wine_batches" "status",
  .dropColumn "wine_batches" "active",
  .dropColumn "wine_batches" "fiken_sync_status",
  .dropColumn "wine_batches" "freight_forwarding_ore",
  .dropColumn "wine_batches" "customs_fee_ore",
  .dropColumn "wine_batches" "transport_cost_ore",
  .dropColumn "wine_batches" "wine_cost_eur_cents",
  .dropColumn "wine_batches" "eur_exchange_rate",
  .dropColumn "wine_batches" "supplier_id",
  .dropColumn "wine_batches" "import_date",
  .dropTable "wine_inventory",
  .dropTable "wine_batch_costs",
  .dropTable "wines",
  .dropTable "suppliers"]

/-- `upgrade()`: apply the revision's forward statements to a schema. -/
def upgrade (s : Schema) : Schema := applyOps s upgradeOps

/-- `downgrade()`: apply the revision's reverse statements to a schema. -/
def downgrade (s : Schema) : Schema := applyOps s downgradeOps

/-- Columns of a named table in a schema (first entry wins). -/
def colsOf : Schema → String → List String
  | [], _ => []
  | e :: rest, t => if e.1 = t then e.2 else colsOf rest t

/-- Column presence: table `t` has a column named `c`. -/
def present (s : Schema) (t c : String) : Prop := c ∈ colsOf s t

instance (s : Schema) (t c : String) : Decidable (present s t c) := by
  unfold present; infer_instance

/-! ## The database dashboard's expected schema (app/dashboard page) -/

/-- The `expectedSchema` constant of the database dashboard: for each table,
the column list the dashboard expects after all migrations. -/
def expectedSchema : List (String × List String) := [
  ("wine_batches",
   ["id", "batch_number", "wine_name", "producer", "import_date", "supplier_id",
    "total_bottles", "eur_exchange_rate", "wine_cost_eur_cents",
    "transport_cost_ore", "customs_fee_ore", "freight_forwarding_ore", "status",
    "fiken_sync_status", "total_cost_nok_ore", "target_price_nok_ore", "active",
    "created_at", "updated_at"]),
  ("suppliers",
   ["id", "name", "country", "contact_person", "email", "phone", "payment_terms",
    "currency", "tax_id", "active", "created_at", "updated_at"]),
  ("wines",
   ["id", "name", "producer", "region", "country", "vintage", "alcohol_content",
    "bottle_size_ml", "product_category", "tasting_notes", "serving_temperature",
    "food_pairing", "organic", "biodynamic", "fiken_product_id", "active",
    "created_at", "updated_at"]),
  ("wine_inventory",
   ["id", "wine_id", "batch_id", "quantity_available", "quantity_reserved",
    "quantity_sold", "cost_per_bottle_ore", "selling_price_ore",
    "markup_percentage", "margin_per_bottle_ore", "minimum_stock_level",
    "location", "best_before_date", "low_stock_alert", "active", "created_at",
    "updated_at"]),
  ("wine_batch_costs",
   ["id", "batch_id", "cost_type", "amount_ore", "currency", "fiken_account_code",
    "payment_date", "allocation_method", "invoice_reference", "active",
    "created_at", "updated_at"]),
  ("customers",
   ["id", "name", "customer_type", "email", "phone", "address_line1",
    "address_line2", "postal_code", "city", "country", "organization_number",
    "vat_number", "preferred_delivery_method", "payment_terms",
    "credit_limit_nok_ore", "marketing_consent", "newsletter_subscription",
    "preferred_language", "notes", "fiken_customer_id", "active", "created_at",
    "updated_at"]),
  ("orders",
   ["id", "order_number", "customer_id", "status", "payment_status", "order_date",
    "requested_delivery_date", "confirmed_delivery_date", "delivered_date",
    "delivery_method", "delivery_address_line1", "delivery_address_line2",
    "delivery_postal_code", "delivery_city", "delivery_country", "delivery_notes",
    "subtotal_ore", "delivery_fee_ore", "discount_ore", "vat_ore", "total_ore",
    "payment_terms", "payment_due_date", "customer_notes", "internal_notes",
    "fiken_order_id", "fiken_invoice_number", "active", "created_at",
    "updated_at"]),
  ("order_items",
   ["id", "order_id", "wine_batch_id", "wine_id", "quantity", "unit_price_ore",
    "total_price_ore", "wine_name", "producer", "vintage", "bottle_size_ml",
    "discount_percentage", "discount_ore", "notes", "active", "created_at",
    "updated_at"])]

/-! ## Substring search (used by the dashboard classification and the guard) -/

/-- Does `pat` occur as a contiguous run inside `s` (character lists)? -/
def listContains (pat : List Char) : List Char → Bool
  | [] => pat.isPrefixOf []
  | c :: t => pat.isPrefixOf (c :: t) || listContains pat t

/-- Does string `pat` occur inside string `s`?  (JavaScript `includes`.) -/
def strContains (s pat : String) : Bool := listContains pat.data s.data

theorem listContains_of_isPrefixOf {pat s : List Char}
    (h : pat.isPrefixOf s = true) : listContains pat s = true := by
  cases s with
  | nil => simpa [listContains] using h
  | cons c t => simp [listContains, h]

theorem listContains_append_right {pat b : List Char} (a : List Char)
    (h : listContains pat b = true) : listContains pat (a ++ b) = true := by
  induction a with
  | nil => simpa using h
  | cons c t ih => simp [listContains, ih]

theorem listContains_append_left {pat a : List Char} (b : List Char)
    (h : listContains pat a = true) : listContains pat (a ++ b) = true := by
  induction a with
  | nil =>
    have hp : pat = [] := by
      simpa [listContains, List.isPrefixOf_iff_prefix] using h
    subst hp
    apply listContains_of_isPrefixOf
    simp [List.isPrefixOf_iff_prefix]
  | cons c t ih =>
    simp only [listContains, Bool.or_eq_true] at h
    rcases h with h | h
    · apply listContains_of_isPrefixOf
      rw [List.isPrefixOf_iff_prefix] at h ⊢
      exact h.trans (List.prefix_append _ _)
    · have := ih h
      simp [listContains, this]

theorem strContains_append_right {pat b : String} (a : String)
    (h : strContains b pat = true) : strContains (a ++ b) pat = true := by
  unfold strContains at *
  rw [String.data_append]
  exact listContains_append_right a.data h

theorem strContains_append_left {pat a : String} (b : String)
    (h : strContains a pat = true) : strContains (a ++ b) pat = true := by
  unfold strContains at *
  rw [String.data_append]
  exact listContains_append_left b.data h

theorem strContains_refl (pat : String) : strContains pat pat = true := by
  unfold strContains
  exact listContains_of_isPrefixOf (by simp [List.isPrefixOf_iff_prefix])

/-! ## The dashboard's `checkSchemaStatus` classification -/

/-- A failed probe of a table's listing endpoint: the caught error, whose
`message` property may be absent (the dashboard then uses `''`). -/
structure ProbeError where
  message : Option String
  deriving DecidableEq, Repr

/-- The dashboard's per-table status values. -/
inductive TableStatus where
  | missing
  | complete
  | partialStatus
  deriving DecidableEq, Repr

/-- One entry of the dashboard's `MigrationStatus` state. -/
structure MigrationStatus where
  table : String
  tableExists : Bool
  status : TableStatus
  deriving DecidableEq, Repr

/-- The error test of `checkSchemaStatus`: message contains
`does not exist` or `42P01` (message defaulting to the empty string). -/
def isMissingTableError (e : ProbeError) : Bool :=
  let msg := e.message.getD ""
  strContains msg "does not exist" || strContains msg "42P01"

/-- The listing endpoint `checkSchemaStatus` probes for a table
(the `switch` over table names; the default replaces the first `_`). -/
def endpointFor (table : String) : String :=
  if table = "wine_batches" then "/db/wine-batches"
  else if table = "suppliers" then "/db/suppliers"
  else if table = "wines" then "/db/wines"
  else if table = "customers" then "/db/customers"
  else if table = "orders" then "/db/orders"
  else if table = "wine_inventory" then "/db/inventory"
  else if table = "wine_batch_costs" then "/db/wine-batch-costs"
  else if table = "order_items" then "/db/order-items"
  else "/db/" ++ (table.replace "_" "-")

/-- Classification of one expected table from its probe outcome:
success means the table exists and is `complete`; a failure whose message
matches `isMissingTableError` means `missing` (exists = false); any other
failure means `partialStatus` (exists = true). -/
def classifyTable (table : String) (probe : Option ProbeError) : MigrationStatus :=
  match probe with
  | none => ⟨table, true, .complete⟩
  | some e =>
    if isMissingTableError e then ⟨table, false, .missing⟩
    else ⟨table, true, .partialStatus⟩

/-- `checkSchemaStatus`: probe every expected table's listing endpoint and
collect the classifications, in `expectedSchema` order. -/
def checkSchemaStatus (probe : String → Option ProbeError) : List MigrationStatus :=
  expectedSchema.map (fun e => classifyTable e.1 (probe e.1))

/-! ## The local API server's dispatch (local-api-server.js) -/

/-- A discovered FastAPI route: HTTP method and path template. -/
structure Route where
  method : String
  path : String
  deriving DecidableEq, Repr

/-- The `\x7b` character (JavaScript `route.path.includes('{')`). -/
def lbrace : Char := Char.ofNat 123

/-- The `\x7d` character. -/
def rbrace : Char := Char.ofNat 125

/-- Split a character list at a separator (JavaScript `String.split`):
`"".split` gives one empty segment, separators delimit segments. -/
def splitSegs (sep : Char) : List Char → List (List Char)
  | [] => [[]]
  | c :: t =>
    match splitSegs sep t with
    | [] => [[]]
    | h :: r => if c = sep then [] :: h :: r else (c :: h) :: r

/-- JavaScript `path.split('/')`. -/
def splitPath (s : String) : List String :=
  (splitSegs (Char.ofNat 47) s.data).map (fun cs => String.mk cs)

/-- Is a template segment a parameter, i.e. starts with `\x7b` and ends
with `\x7d`? -/
def isParamSeg (s : String) : Bool :=
  s.data.head? == some lbrace && s.data.getLast? == some rbrace

/-- JavaScript `segment.slice(1, -1)`: the parameter name between braces. -/
def paramName (s : String) : String := String.mk (s.data.drop 1).dropLast

/-- `extractPathParams` on already-split segment lists: `none` when the
segment counts differ or a static segment mismatches; otherwise the
collected (parameter name, actual segment) pairs. -/
def extractSegs : List String → List String → Option (List (String × String))
  | [], [] => some []
  | r :: rs, p :: ps =>
    if isParamSeg r then
      (extractSegs rs ps).map (fun acc => (paramName r, p) :: acc)
    else if r = p then extractSegs rs ps
    else none
  | _, _ => none

/-- `extractPathParams(routeTemplate, actualPath)` of local-api-server.js. -/
def extractPathParams (template actual : String) : Option (List (String × String)) :=
  extractSegs (splitPath template) (splitPath actual)

/-- The parameterised-route fallback loop of `createDynamicRequestHandler`:
first route whose method matches, whose template contains `\x7b`, and whose
template extracts parameters from the path. -/
def matchParamRoutes (method path : String) :
    List Route → Option (Route × List (String × String))
  | [] => none
  | r :: rest =>
    if r.method == method && r.path.data.contains lbrace then
      match extractPathParams r.path path with
      | some ps => some (r, ps)
      | none => matchParamRoutes method path rest
    else matchParamRoutes method path rest

/-- Route lookup of `createDynamicRequestHandler`: an exact method + path
match first, then the parameterised-route loop. -/
def findMatchingRoute (routes : List Route) (method path : String) :
    Option (Route × List (String × String)) :=
  match routes.find? (fun r => r.method == method && r.path == path) with
  | some r => some (r, [])
  | none => matchParamRoutes method path routes

/-- Path normalisation of the handler: keep `/`, else strip one trailing `/`
(JavaScript `path.replace(/\/$/, '')`). -/
def normalizePath (p : String) : String :=
  if p = "/" then p
  else if p.data.getLast? = some (Char.ofNat 47) then String.mk p.data.dropLast
  else p

/-- Outcome of the express middleware chain for one request: either the
request is dispatched to a route (with extracted path parameters), or it
falls through to the 404 handler, whose JSON body carries an `error` field
and a `message` field. -/
inductive DispatchResult where
  | dispatched (route : Route) (params : List (String × String))
  | notFound (status : Nat) (error message : String)
  deriving DecidableEq, Repr

/-- `createDynamicRequestHandler` plus the 404 fallback: dispatch the request
to the matching route, else answer 404 naming the method and the raw path. -/
def handleRequest (routes : List Route) (method rawPath : String) : DispatchResult :=
  match findMatchingRoute routes method (normalizePath rawPath) with
  | some (r, ps) => .dispatched r ps
  | none =>
    .notFound 404 "Not Found"
      ("No FastAPI route found for " ++ method ++ " " ++ rawPath)

/-! ## Pre-commit guard (modelled from the spec) -/

/-- File-pattern of the pre-commit hooks (.pre-commit-config.yaml): a model
file lives under `amplify/functions/db-migrations/models/` and ends in `.py`. -/
def isModelFile (p : String) : Bool :=
  "amplify/functions/db-migrations/models/".data.isPrefixOf p.data &&
  ".py".data.isSuffixOf p.data

/-- File-pattern of the pre-commit hooks (.pre-commit-config.yaml): a
migration file lives under `amplify/functions/db-migrations/alembic/versions/`
and ends in `.py`. -/
def isMigrationFile (p : String) : Bool :=
  "amplify/functions/db-migrations/alembic/versions/".data.isPrefixOf p.data &&
  ".py".data.isSuffixOf p.data

/-- Modelled from the spec: one changed file at commit time, with the
pattern-based model-change detections the guide lists (new model class, new
column, new relationship, new table name); the guard script
`scripts/test_migrations_hook.py` itself is not in the snapshot. -/
structure ChangedFile where
  path : String
  newModelClass : Bool
  newColumn : Bool
  newRelationship : Bool
  newTableName : Bool
  deriving DecidableEq, Repr

/-- Modelled from the spec: a changed model file counts as a model change
when any of the four detection patterns fires. -/
def hasModelChange (f : ChangedFile) : Bool :=
  f.newModelClass || f.newColumn || f.newRelationship || f.newTableName

/-- Modelled from the spec: guard outcomes.  `blocked` carries the non-zero
exit code and the printed remediation; `runHarness` runs the migration tests. -/
inductive GuardOutcome where
  | allow
  | blocked (exitCode : Nat) (message : String)
  | runHarness
  deriving DecidableEq, Repr

/-- Modelled from the spec: the remediation the guard prints when blocking,
naming each changed model file and the migration-generation command
(wording from the MODEL CHANGES DETECTED guidance in the guide). -/
def remediationMessage (modelPaths : List String) : String :=
  "MODEL CHANGES DETECTED - MIGRATION REQUIRED\n" ++
  (modelPaths.foldr (fun p acc => ("New column(s) in " ++ p ++ "\n") ++ acc)
    ("NEXT STEPS REQUIRED: cd amplify/functions/db-migrations and run python -m alembic revision --autogenerate -m <message>\nCOMMIT BLOCKED: Please generate migration first!"))

/-- Modelled from the spec: the guard's decision table over the changed-file
set.  Model changed and no migration changed: block.  Any model or migration
change otherwise: run the local test harness.  Neither: allow without
running the migration checks. -/
def guardDecision (files : List ChangedFile) : GuardOutcome :=
  let modelChanged := files.filter (fun f => isModelFile f.path && hasModelChange f)
  let migrationChanged := files.any (fun f => isMigrationFile f.path)
  if !modelChanged.isEmpty && !migrationChanged then
    .blocked 1 (remediationMessage (modelChanged.map (fun f => f.path)))
  else if !modelChanged.isEmpty || migrationChanged then
    .runHarness
  else
    .allow

/-! ## Migration runner transaction semantics (modelled from the spec) -/

/-- Modelled from the spec: one DDL/DML statement of a revision, as a named
partial schema transformation (failure = `none`); the Alembic runner and its
Lambda wrapper are not in the snapshot. -/
structure MigStmt where
  stmtName : String
  run : Schema → Option Schema

/-- Modelled from the spec: a revision file: its id and its statements. -/
structure Revision where
  revId : String
  stmts : List MigStmt

/-- Modelled from the spec: the database state the runner sees: the schema
plus the revision-tracking table (the currently recorded revision id). -/
structure MigState where
  schema : Schema
  currentRevision : Option String
  deriving DecidableEq, Repr

/-- Modelled from the spec: the error surfaced on a failed apply: the failing
revision, the failing statement, and the last-good recorded revision id. -/
structure ApplyError where
  failedRevision : String
  failingStatement : String
  lastGoodRevision : Option String
  deriving DecidableEq, Repr

/-- Run a revision's statements in order inside the transaction; on failure
report the failing statement together with the partial schema reached. -/
def runStmts (sch : Schema) : List MigStmt → Except (String × Schema) Schema
  | [] => .ok sch
  | st :: rest =>
    match st.run sch with
    | some sch2 => runStmts sch2 rest
    | none => .error (st.stmtName, sch)

/-- Modelled from the spec: apply one revision transactionally: only a fully
successful statement list commits and records the revision id; on failure
the partial schema is discarded (rollback) and the error names the failing
statement and the last-good revision. -/
def applyRevision (s : MigState) (r : Revision) : Except ApplyError MigState :=
  match runStmts s.schema r.stmts with
  | .ok sch2 => .ok ⟨sch2, some r.revId⟩
  | .error (stmtName, _) => .error ⟨r.revId, stmtName, s.currentRevision⟩

/-- Modelled from the spec: replay revisions in chain order until the end or
the first failure; a failure leaves the state as of the last commit. -/
def applyChain (s : MigState) : List Revision → MigState × Option ApplyError
  | [] => (s, none)
  | r :: rs =>
    match applyRevision s r with
    | .ok s2 => applyChain s2 rs
    | .error e => (s, some e)

/-! ## Lambda compatibility checker (modelled from the spec) -/

/-- Modelled from the spec: the blocked-package table of the compatibility
checker with its suggested replacements; `scripts/test_lambda_compatibility.py`
is not in the snapshot, the classification lists are from the guide. -/
def blockedPackages : List (String × String) := [
  ("pydantic-core", "pydantic v1.x"),
  ("psycopg2", "psycopg2-binary"),
  ("lxml", "xml.etree.ElementTree"),
  ("mysqlclient", "PyMySQL")]

/-- Modelled from the spec: packages that may work but warrant a warning. -/
def warningPackages : List String := ["numpy", "pandas", "pillow", "cryptography"]

/-- Modelled from the spec: known-good recommended packages. -/
def recommendedPackages : List String :=
  ["psycopg2-binary", "pg8000", "boto3", "sqlalchemy", "alembic"]

/-- Modelled from the spec: the structured compatibility report: blocked
packages with their suggested replacement, and advisory warnings. -/
structure CompatReport where
  blocked : List (String × String)
  warnings : List String
  deriving DecidableEq, Repr

/-- Modelled from the spec: scan a requirements manifest: classify each
package against the blocked and warning tables. -/
def scanRequirements (reqs : List String) : CompatReport :=
  { blocked := reqs.filterMap (fun p =>
      (blockedPackages.find? (fun e => e.1 == p)).map (fun e => (p, e.2))),
    warnings := reqs.filter (fun p => warningPackages.contains p) }

/-- Modelled from the spec: the overall check passes exactly when the blocked
list is empty; warnings are advisory only. -/
def compatCheckPasses (reqs : List String) : Bool :=
  (scanRequirements reqs).blocked.isEmpty

/-! ## Fixture load harness (modelled from the spec) -/

/-- Modelled from the spec: a test database: per table, its inserted rows.
The fixture scripts are not in the snapshot; tables come from the in-source
`expectedSchema`, the fixture data from the guide's fixture list. -/
structure TestDb where
  tables : List (String × List DbRow)
  deriving Repr

/-- The fresh database after applying the full migration chain: every
expected table exists and is empty. -/
def freshDb : TestDb := ⟨expectedSchema.map (fun e => (e.1, []))⟩

/-- Rows currently stored in a table. -/
def dbRows (db : TestDb) (t : String) : List DbRow :=
  ((db.tables.find? (fun e => e.1 == t)).map (fun e => e.2)).getD []

/-- Modelled from the spec: insert one row, enforcing that the table exists,
that every bound column is an expected column of the table, that the row has
an `id`, and that no stored row already uses that `id` (primary key). -/
def insertRow (db : TestDb) (t : String) (row : DbRow) : Option TestDb :=
  match (expectedSchema.find? (fun e => e.1 == t)).map (fun e => e.2) with
  | none => none
  | some cols =>
    if row.all (fun e => cols.contains e.1) &&
       (lookupVal row "id").isSome &&
       (dbRows db t).all (fun r => lookupVal r "id" ≠ lookupVal row "id") then
      some ⟨db.tables.map (fun e => if e.1 = t then (e.1, e.2 ++ [row]) else e)⟩
    else none

/-- Insert a list of rows into one table, failing on the first violation. -/
def insertAll (db : TestDb) (t : String) : List DbRow → Option TestDb
  | [] => some db
  | row :: rest =>
    match insertRow db t row with
    | some db2 => insertAll db2 t rest
    | none => none

/-- Modelled from the spec: the four Norwegian wine-import wine batch
fixtures (names, producers, bottle counts and øre totals from the guide). -/
def fixtureWineBatches : List DbRow := [
  [("id", .guidV "b0000001"), ("batch_number", .strV "IT-2024-001"),
   ("wine_name", .strV "Barolo DOCG"), ("producer", .strV "Fontanafredda"),
   ("total_bottles", .intV 12), ("total_cost_nok_ore", .intV 8950000),
   ("status", .strV "AVAILABLE"), ("active", .boolV true)],
  [("id", .guidV "b0000002"), ("batch_number", .strV "IT-2024-002"),
   ("wine_name", .strV "Chianti Classico DOCG"),
   ("producer", .strV "Castello di Brolio"),
   ("total_bottles", .intV 24), ("total_cost_nok_ore", .intV 6720000),
   ("status", .strV "AVAILABLE"), ("active", .boolV true)],
  [("id", .guidV "b0000003"), ("batch_number", .strV "FR-2024-001"),
   ("wine_name", .strV "Chablis Premier Cru"),
   ("producer", .strV "Domaine William Fèvre"),
   ("total_bottles", .intV 6), ("total_cost_nok_ore", .intV 4500000),
   ("status", .strV "AVAILABLE"), ("active", .boolV true)],
  [("id", .guidV "b0000004"), ("batch_number", .strV "ES-2024-001"),
   ("wine_name", .strV "Ribera del Duero"), ("producer", .strV "Vega Sicilia"),
   ("total_bottles", .intV 18), ("total_cost_nok_ore", .intV 13450000),
   ("status", .strV "AVAILABLE"), ("active", .boolV true)]]

/-- Modelled from the spec: the three Norwegian customer fixtures. -/
def fixtureCustomers : List DbRow := [
  [("id", .guidV "c0000001"), ("name", .strV "Maaemo Restaurant AS"),
   ("customer_type", .strV "restaurant"), ("city", .strV "Oslo"),
   ("organization_number", .strV "912345678"), ("active", .boolV true)],
  [("id", .guidV "c0000002"), ("name", .strV "Theatercaféen AS"),
   ("customer_type", .strV "restaurant"), ("city", .strV "Oslo"),
   ("organization_number", .strV "923456789"), ("active", .boolV true)],
  [("id", .guidV "c0000003"), ("name", .strV "Vinmonopolet"),
   ("customer_type", .strV "monopoly"), ("city", .strV "Oslo"),
   ("organization_number", .strV "934567890"), ("active", .boolV true)]]

/-- Modelled from the spec: load the fixture dataset: the wine batches, then
the customers, each insert checked for constraint violations. -/
def loadFixtures (db : TestDb) : Option TestDb :=
  match insertAll db "wine_batches" fixtureWineBatches with
  | some db2 => insertAll db2 "customers" fixtureCustomers
  | none => none

/-- Row count of one table. -/
def rowCount (db : TestDb) (t : String) : Nat := (dbRows db t).length

/-- Modelled from the spec: the harness's row-count report line. -/
def harnessReport (db : TestDb) : String :=
  "wine_batches: " ++ toString (rowCount db "wine_batches") ++
  " rows, customers: " ++ toString (rowCount db "customers") ++ " rows"

/-- Modelled from the spec: overall success: the fixture load succeeds on the
fresh post-migration database and the row counts match expectations. -/
def harnessSuccess : Bool :=
  match loadFixtures freshDb with
  | some db => rowCount db "wine_batches" == 4 && rowCount db "customers" == 3
  | none => false



theorem applyOps_cons (s : Schema) (op : MigOp) (ops : List MigOp) :
    applyOps s (op :: ops) = applyOps (applyOp s op) ops := rfl

/-- The pre-revision schema as the round-trip claim sees it: the
`wine_batches` table with some column set `l` (the tables the revision
creates do not yet exist, which the round-trip theorem's hypotheses record). -/
def preRevisionState (l : List String) : Schema := [("wine_batches", l)]

/-- The wine_batches column list after `upgrade()`: nine columns appended,
four columns dropped, in statement order. -/
def upgradeWbCols (l : List String) : List String :=
  ((((l ++ ["import_date"] ++ ["supplier_id"] ++ ["eur_exchange_rate"] ++
    ["wine_cost_eur_cents"] ++ ["transport_cost_ore"] ++ ["customs_fee_ore"] ++
    ["freight_forwarding_ore"] ++ ["fiken_sync_status"] ++ ["active"]).filter
      (fun x => x ≠ "total_cost_nok_ore")).filter
      (fun x => x ≠ "target_price_nok_ore")).filter
      (fun x => x ≠ "producer")).filter
      (fun x => x ≠ "wine_name")

/-- The wine_batches column list after `downgrade()` on a post-upgrade column
list `m`: four columns re-added, nine columns dropped, in statement order. -/
def downgradeWbCols (m : List String) : List String :=
  (((((((((m ++ ["wine_name"] ++ ["producer"] ++ ["target_price_nok_ore"] ++
    ["total_cost_nok_ore"]).filter
      (fun x => x ≠ "active")).filter
      (fun x => x ≠ "fiken_sync_status")).filter
      (fun x => x ≠ "freight_forwarding_ore")).filter
      (fun x => x ≠ "customs_fee_ore")).filter
      (fun x => x ≠ "transport_cost_ore")).filter
      (fun x => x ≠ "wine_cost_eur_cents")).filter
      (fun x => x ≠ "eur_exchange_rate")).filter
      (fun x => x ≠ "supplier_id")).filter
      (fun x => x ≠ "import_date")

theorem upgrade_preRevisionState (l : List String) :
    upgrade (preRevisionState l) =
      [("wine_batches", upgradeWbCols l),
       ("suppliers", suppliersCols.map ColumnDef.name),
       ("wines", winesCols.map ColumnDef.name),
       ("wine_batch_costs", wineBatchCostsCols.map ColumnDef.name),
       ("wine_inventory", wineInventoryCols.map ColumnDef.name)] := by
  simp only [upgrade, preRevisionState, upgradeOps, applyOps_cons, applyOps]
  simp [applyOp, upgradeWbCols]

theorem downgrade_postUpgradeState (m : List String) :
    downgrade [("wine_batches", m),
       ("suppliers", suppliersCols.map ColumnDef.name),
       ("wines", winesCols.map ColumnDef.name),
       ("wine_batch_costs", wineBatchCostsCols.map ColumnDef.name),
       ("wine_inventory", wineInventoryCols.map ColumnDef.name)] =
      [("wine_batches", downgradeWbCols m)] := by
  simp only [downgrade, downgradeOps, applyOps_cons, applyOps]
  simp [applyOp, downgradeWbCols]

theorem mem_roundtrip_wbCols (l : List String)
    (hwn : "wine_name" ∈ l) (hpr : "producer" ∈ l)
    (htp : "target_price_nok_ore" ∈ l) (htc : "total_cost_nok_ore" ∈ l)
    (ha1 : "import_date" ∉ l) (ha2 : "supplier_id" ∉ l)
    (ha3 : "eur_exchange_rate" ∉ l) (ha4 : "wine_cost_eur_cents" ∉ l)
    (ha5 : "transport_cost_ore" ∉ l) (ha6 : "customs_fee_ore" ∉ l)
    (ha7 : "freight_forwarding_ore" ∉ l) (ha8 : "fiken_sync_status" ∉ l)
    (ha9 : "active" ∉ l) (c : String) :
    c ∈ downgradeWbCols (upgradeWbCols l) ↔ c ∈ l := by
  by_cases e1 : c = "wine_name"
  · subst e1; simp [downgradeWbCols, upgradeWbCols, hwn]
  by_cases e2 : c = "producer"
  · subst e2; simp [downgradeWbCols, upgradeWbCols, hpr]
  by_cases e3 : c = "target_price_nok_ore"
  · subst e3; simp [downgradeWbCols, upgradeWbCols, htp]
  by_cases e4 : c = "total_cost_nok_ore"
  · subst e4; simp [downgradeWbCols, upgradeWbCols, htc]
  by_cases f1 : c = "import_date"
  · subst f1; simp [downgradeWbCols, upgradeWbCols, ha1]
  by_cases f2 : c = "supplier_id"
  · subst f2; simp [downgradeWbCols, upgradeWbCols, ha2]
  by_cases f3 : c = "eur_exchange_rate"
  · subst f3; simp [downgradeWbCols, upgradeWbCols, ha3]
  by_cases f4 : c = "wine_cost_eur_cents"
  · subst f4; simp [downgradeWbCols, upgradeWbCols, ha4]
  by_cases f5 : c = "transport_cost_ore"
  · subst f5; simp [downgradeWbCols, upgradeWbCols, ha5]
  by_cases f6 : c = "customs_fee_ore"
  · subst f6; simp [downgradeWbCols, upgradeWbCols, ha6]
  by_cases f7 : c = "freight_forwarding_ore"
  · subst f7; simp [downgradeWbCols, upgradeWbCols, ha7]
  by_cases f8 : c = "fiken_sync_status"
  · subst f8; simp [downgradeWbCols, upgradeWbCols, ha8]
  by_cases f9 : c = "active"
  · subst f9; simp [downgradeWbCols, upgradeWbCols, ha9]
  simp [downgradeWbCols, upgradeWbCols, e1, e2, e3, e4, f1, f2, f3, f4, f5, f6, f7, f8, f9]

theorem colsOf_single (t' : String) (cs : List String) (t : String) :
    colsOf [(t', cs)] t = if t' = t then cs else [] := by
  simp [colsOf]

/-- C2: for revision 56fcd8e31e43, applying `upgrade()` and then
`downgrade()` restores the pre-revision column-presence state: on any
pre-revision state in which the wine_batches table carries the four columns
the revision drops (wine_name, producer, target_price_nok_ore,
total_cost_nok_ore), none of the nine columns it adds, and none of the four
tables it creates exist yet, the are-these-columns-present relation after
the round trip equals the one before `upgrade()`. -/
theorem upgrade_downgrade_roundtrip (l : List String)
    (hwn : "wine_name" ∈ l) (hpr : "producer" ∈ l)
    (htp : "target_price_nok_ore" ∈ l) (htc : "total_cost_nok_ore" ∈ l)
    (ha1 : "import_date" ∉ l) (ha2 : "supplier_id" ∉ l)
    (ha3 : "eur_exchange_rate" ∉ l) (ha4 : "wine_cost_eur_cents" ∉ l)
    (ha5 : "transport_cost_ore" ∉ l) (ha6 : "customs_fee_ore" ∉ l)
    (ha7 : "freight_forwarding_ore" ∉ l) (ha8 : "fiken_sync_status" ∉ l)
    (ha9 : "active" ∉ l) :
    ∀ t c, present (downgrade (upgrade (preRevisionState l))) t c ↔
      present (preRevisionState l) t c := by
  intro t c
  rw [upgrade_preRevisionState, downgrade_postUpgradeState]
  show c ∈ colsOf [("wine_batches", downgradeWbCols (upgradeWbCols l))] t ↔
    c ∈ colsOf [("wine_batches", l)] t
  rw [colsOf_single, colsOf_single]
  by_cases ht : "wine_batches" = t
  · rw [if_pos ht, if_pos ht]
    exact mem_roundtrip_wbCols l hwn hpr htp htc ha1 ha2 ha3 ha4 ha5 ha6 ha7 ha8 ha9 c
  · rw [if_neg ht, if_neg ht]

/-- The wine_batches column set before revision 56fcd8e31e43 used for the
round-trip witness (columns named by `downgrade()` and the dashboard's
expected schema). -/
def preRevisionWbCols : List String :=
  ["id", "batch_number", "wine_name", "producer", "status", "total_bottles",
   "total_cost_nok_ore", "target_price_nok_ore", "created_at", "updated_at"]

theorem upgrade_downgrade_roundtrip_witness :
    ("wine_name" ∈ preRevisionWbCols ∧ "producer" ∈ preRevisionWbCols ∧
     "target_price_nok_ore" ∈ preRevisionWbCols ∧
     "total_cost_nok_ore" ∈ preRevisionWbCols ∧
     "import_date" ∉ preRevisionWbCols ∧ "active" ∉ preRevisionWbCols) ∧
    (present (downgrade (upgrade (preRevisionState preRevisionWbCols)))
        "wine_batches" "wine_name" ↔
      present (preRevisionState preRevisionWbCols) "wine_batches" "wine_name") ∧
    (present (downgrade (upgrade (preRevisionState preRevisionWbCols)))
        "wine_batches" "import_date" ↔
      present (preRevisionState preRevisionWbCols) "wine_batches" "import_date") :=
  ⟨by decide,
   upgrade_downgrade_roundtrip preRevisionWbCols (by decide) (by decide) (by decide)
     (by decide) (by decide) (by decide) (by decide) (by decide) (by decide)
     (by decide) (by decide) (by decide) (by decide) "wine_batches" "wine_name",
   upgrade_downgrade_roundtrip preRevisionWbCols (by decide) (by decide) (by decide)
     (by decide) (by decide) (by decide) (by decide) (by decide) (by decide)
     (by decide) (by decide) (by decide) (by decide) "wine_batches" "import_date"⟩

/-! ## Claim C1: monetary fields -/

/-- A wine_inventory row that satisfies every constraint the migration DDL
declares, yet stores a negative cost. -/
def negativeCostRow : DbRow := [
  ("wine_id", .guidV "7a1b2c3d"),
  ("batch_id", .nullV),
  ("quantity_available", .intV 10),
  ("cost_per_bottle_ore", .intV (-100)),
  ("selling_price_ore", .intV 19900),
  ("minimum_stock_level", .nullV),
  ("location", .nullV),
  ("best_before_date", .nullV),
  ("id", .guidV "9e8f7a6b"),
  ("created_at", .dateV "2025-06-23"),
  ("updated_at", .dateV "2025-06-23"),
  ("active", .boolV true)]

/-- A fully unexceptional wine_inventory row. -/
def typicalInventoryRow : DbRow := [
  ("wine_id", .guidV "11112222"),
  ("batch_id", .guidV "33334444"),
  ("quantity_available", .intV 24),
  ("cost_per_bottle_ore", .intV 15000),
  ("selling_price_ore", .intV 19900),
  ("minimum_stock_level", .intV 6),
  ("location", .strV "Oslo cellar"),
  ("best_before_date", .strV "2030-01-01"),
  ("id", .guidV "55556666"),
  ("created_at", .dateV "2025-06-23"),
  ("updated_at", .dateV "2025-06-23"),
  ("active", .boolV true)]

/-- C1 (counterexample): it is not the case that every row valid for the
wine_inventory table created by revision 56fcd8e31e43 stores non-negative
monetary values and a margin column equal to selling price minus cost:
`negativeCostRow` satisfies every declared constraint (types and
nullability) while storing cost_per_bottle_ore = -100 øre, and the created
table has no margin column a row could bind at all. -/
theorem inventory_monetary_claim_false :
    ¬ (∀ row : DbRow, rowValid wineInventoryCols row = true →
        monetaryNonNeg (lookupVal row "cost_per_bottle_ore") = true ∧
        monetaryNonNeg (lookupVal row "selling_price_ore") = true ∧
        ∃ m sp cb : Int,
          lookupVal row "margin_per_bottle_ore" = some (.intV m) ∧
          lookupVal row "selling_price_ore" = some (.intV sp) ∧
          lookupVal row "cost_per_bottle_ore" = some (.intV cb) ∧
          m = sp - cb) := by
  intro h
  have h1 := (h negativeCostRow (by decide)).1
  exact absurd h1 (by decide)

theorem colOk_int_not_null {row : DbRow} {c : ColumnDef}
    (h : colOk row c = true) (ht : c.ctype = ColType.intCol)
    (hn : c.nullable = false) :
    ∃ i : Int, lookupVal row c.name = some (.intV i) := by
  unfold colOk at h
  cases hv : lookupVal row c.name with
  | none => rw [hv] at h; exact absurd h (by simp)
  | some v =>
    rw [hv] at h
    cases v with
    | intV i => exact ⟨i, rfl⟩
    | nullV => rw [hn] at h; exact absurd h (by simp)
    | strV s => rw [ht] at h; exact absurd h (by simp [valueMatches])
    | boolV b => rw [ht] at h; exact absurd h (by simp [valueMatches])
    | dateV s => rw [ht] at h; exact absurd h (by simp [valueMatches])
    | decimalV n sc => rw [ht] at h; exact absurd h (by simp [valueMatches])
    | guidV s => rw [ht] at h; exact absurd h (by simp [valueMatches])

/-- C1 (amended): every persisted monetary field named by the specification
is declared with integer column type (never a decimal / floating-point
type), and a valid wine_inventory row always stores genuine integers in the
non-nullable monetary columns; the schema enforces neither non-negativity
nor any margin equation (the created wine_inventory table has no margin
column at all). -/
theorem monetary_fields_integer (row : DbRow)
    (h : rowValid wineInventoryCols row = true) :
    (monetaryFields.all (fun e =>
        declaredType e.2.1 e.2.2 = some ColType.intCol)) = true ∧
    (monetaryFields.all (fun e =>
        ((declaredType e.2.1 e.2.2).map ColType.isDecimal) = some false)) = true ∧
    ("margin_per_bottle_ore" ∉ wineInventoryCols.map ColumnDef.name) ∧
    (∃ i : Int, lookupVal row "cost_per_bottle_ore" = some (.intV i)) ∧
    (∃ j : Int, lookupVal row "selling_price_ore" = some (.intV j)) := by
  refine ⟨by decide, by decide, by decide, ?_, ?_⟩
  · have hall : wineInventoryCols.all (colOk row) = true := by
      have h2 := h
      unfold rowValid at h2
      rw [Bool.and_eq_true] at h2
      exact h2.1
    rw [List.all_eq_true] at hall
    have h1 := hall ⟨"cost_per_bottle_ore", .intCol, false⟩ (by decide)
    exact colOk_int_not_null h1 rfl rfl
  · have hall : wineInventoryCols.all (colOk row) = true := by
      have h2 := h
      unfold rowValid at h2
      rw [Bool.and_eq_true] at h2
      exact h2.1
    rw [List.all_eq_true] at hall
    have h2 := hall ⟨"selling_price_ore", .intCol, false⟩ (by decide)
    exact colOk_int_not_null h2 rfl rfl

theorem monetary_fields_integer_witness :
    rowValid wineInventoryCols typicalInventoryRow = true ∧
    (∃ i : Int,
      lookupVal typicalInventoryRow "cost_per_bottle_ore" = some (.intV i)) ∧
    (∃ j : Int,
      lookupVal typicalInventoryRow "selling_price_ore" = some (.intV j)) :=
  ⟨by decide,
   (monetary_fields_integer typicalInventoryRow (by decide)).2.2.2.1,
   (monetary_fields_integer typicalInventoryRow (by decide)).2.2.2.2⟩

/-! ## Claims C7, C8: foreign keys and stored totals -/

/-- C7 (counterexample): it is false that the parent-to-line-item foreign
keys are declared with cascade-delete: revision 56fcd8e31e43 declares
wine_batch_costs.batch_id → wine_batches.id and
wine_inventory.batch_id → wine_batches.id with no ON DELETE action at all,
and declares no foreign key on any order_items table. -/
theorem cascade_delete_claim_false :
    ¬ ((∃ fk ∈ migrationForeignKeys, fk.table = "wine_batch_costs" ∧
          fk.column = "batch_id" ∧ fk.refTable = "wine_batches" ∧
          fk.onDelete = some "CASCADE") ∧
       (∃ fk ∈ migrationForeignKeys, fk.table = "wine_inventory" ∧
          fk.column = "batch_id" ∧ fk.refTable = "wine_batches" ∧
          fk.onDelete = some "CASCADE") ∧
       (∃ fk ∈ migrationForeignKeys, fk.table = "order_items" ∧
          fk.column = "order_id" ∧ fk.refTable = "orders" ∧
          fk.onDelete = some "CASCADE")) := by
  decide

/-- C7 (amended): the batch-to-line-item foreign keys
(wine_batch_costs.batch_id → wine_batches.id and
wine_inventory.batch_id → wine_batches.id) are declared by revision
56fcd8e31e43, but every foreign key it declares carries no ON DELETE
action (so no cascade-delete), and the revision declares no foreign key
for order_items. -/
theorem foreign_keys_no_cascade :
    (∃ fk ∈ migrationForeignKeys, fk.table = "wine_batch_costs" ∧
       fk.column = "batch_id" ∧ fk.refTable = "wine_batches" ∧
       fk.refColumn = "id") ∧
    (∃ fk ∈ migrationForeignKeys, fk.table = "wine_inventory" ∧
       fk.column = "batch_id" ∧ fk.refTable = "wine_batches" ∧
       fk.refColumn = "id") ∧
    (migrationForeignKeys.all (fun fk => fk.onDelete == none)) = true ∧
    (migrationForeignKeys.all (fun fk => !(fk.table == "order_items"))) = true := by
  decide

/-- C8 (counterexample): the claim that order totals are not stored
redundantly as a column of the orders table is false: `total_ore` is an
expected column of `orders` in the dashboard's schema. -/
theorem order_total_is_stored : "total_ore" ∈ colsOf expectedSchema "orders" := by
  decide

/-- C8 (amended): the orders table stores subtotal_ore, vat_ore and
total_ore all as ordinary columns (the total is a stored column, not an
unstored generated value), and order_items store unit_price_ore and
total_price_ore with no margin column of any kind. -/
theorem orders_store_totals_no_item_margin :
    "subtotal_ore" ∈ colsOf expectedSchema "orders" ∧
    "vat_ore" ∈ colsOf expectedSchema "orders" ∧
    "total_ore" ∈ colsOf expectedSchema "orders" ∧
    "unit_price_ore" ∈ colsOf expectedSchema "order_items" ∧
    "total_price_ore" ∈ colsOf expectedSchema "order_items" ∧
    ((colsOf expectedSchema "order_items").all
      (fun c => !(strContains c "margin"))) = true := by
  decide

/-! ## Claim C6: fixture load -/

/-- C6: loading the fixture dataset into the fresh post-migration database
succeeds without constraint violation, yields exactly 4 wine batch rows and
3 customer rows, and the harness report line is exactly
`wine_batches: 4 rows, customers: 3 rows` with overall success. -/
theorem fixture_load_counts :
    ((loadFixtures freshDb).map (fun db => rowCount db "wine_batches")) = some 4 ∧
    ((loadFixtures freshDb).map (fun db => rowCount db "customers")) = some 3 ∧
    ((loadFixtures freshDb).map harnessReport) =
      some "wine_batches: 4 rows, customers: 3 rows" ∧
    harnessSuccess = true := by
  refine ⟨?_, ?_, ?_, ?_⟩ <;> decide

/-! ## Claim C9: schema-status classification -/

/-- C9: for every entry of the dashboard's schema check, the table is
classified `missing` (with exists = false) exactly when its probe failed
with an error message containing `does not exist` or `42P01`; any other
probe failure classifies it exists = true with status `partial`; a
successful probe always classifies it `complete`. -/
theorem checkSchemaStatus_classification
    (probe : String → Option ProbeError) (st : MigrationStatus)
    (hst : st ∈ checkSchemaStatus probe) :
    (st.status = .missing ↔
      ∃ e, probe st.table = some e ∧ isMissingTableError e = true) ∧
    (st.tableExists = false ↔ st.status = .missing) ∧
    (probe st.table = none → st.status = .complete) ∧
    (∀ e, probe st.table = some e → isMissingTableError e = false →
      st.status = .partialStatus ∧ st.tableExists = true) := by
  unfold checkSchemaStatus at hst
  rcases List.mem_map.mp hst with ⟨entry, _, hentry⟩
  subst hentry
  have htab : (classifyTable entry.1 (probe entry.1)).table = entry.1 := by
    cases hp : probe entry.1 with
    | none => simp [classifyTable]
    | some e =>
      by_cases hm : isMissingTableError e = true
      · simp [classifyTable, hm]
      · simp [classifyTable, hm]
  rw [htab]
  generalize probe entry.1 = pr
  cases pr with
  | none => simp [classifyTable]
  | some e =>
    by_cases hm : isMissingTableError e = true
    · simp [classifyTable, hm]
    · simp [classifyTable, hm]

/-- A probe outcome in which every table's listing endpoint fails with the
PostgreSQL undefined-table error. -/
def probeAllMissing : String → Option ProbeError :=
  fun t => some ⟨some ("relation " ++ t ++ " does not exist (42P01)")⟩

theorem checkSchemaStatus_classification_witness :
    (classifyTable "wine_batches" (probeAllMissing "wine_batches") ∈
      checkSchemaStatus probeAllMissing) ∧
    (classifyTable "wine_batches" (probeAllMissing "wine_batches")).status =
      TableStatus.missing :=
  ⟨by decide,
   (checkSchemaStatus_classification probeAllMissing
      (classifyTable "wine_batches" (probeAllMissing "wine_batches"))
      (by decide)).1.mpr
     ⟨⟨some "relation wine_batches does not exist (42P01)"⟩, by decide, by decide⟩⟩

/-! ## Claim C10: request dispatch -/

theorem matchParamRoutes_sound {method path : String} {routes : List Route}
    {r : Route} {ps : List (String × String)}
    (h : matchParamRoutes method path routes = some (r, ps)) :
    r ∈ routes ∧ r.method = method ∧ r.path.data.contains lbrace = true ∧
      extractPathParams r.path path = some ps := by
  induction routes with
  | nil => exact absurd h (by simp [matchParamRoutes])
  | cons hd tl ih =>
    unfold matchParamRoutes at h
    by_cases hc : (hd.method == method && hd.path.data.contains lbrace) = true
    · rw [if_pos hc] at h
      cases hx : extractPathParams hd.path path with
      | some ps2 =>
        rw [hx] at h
        cases h
        rw [Bool.and_eq_true] at hc
        rcases hc with ⟨hm, hb⟩
        exact ⟨List.mem_cons_self _ _, eq_of_beq hm, hb, hx⟩
      | none =>
        rw [hx] at h
        rcases ih h with ⟨hmem, hrest⟩
        exact ⟨List.mem_cons_of_mem _ hmem, hrest⟩
    · rw [if_neg hc] at h
      rcases ih h with ⟨hmem, hrest⟩
      exact ⟨List.mem_cons_of_mem _ hmem, hrest⟩

theorem findMatchingRoute_sound {routes : List Route} {method path : String}
    {r : Route} {ps : List (String × String)}
    (h : findMatchingRoute routes method path = some (r, ps)) :
    r ∈ routes ∧ r.method = method ∧
      (r.path = path ∨
        (r.path.data.contains lbrace = true ∧ extractPathParams r.path path = some ps)) := by
  unfold findMatchingRoute at h
  cases hf : routes.find? (fun r => r.method == method && r.path == path) with
  | some r2 =>
    rw [hf] at h
    cases h
    have hfp := List.find?_some hf
    rw [Bool.and_eq_true] at hfp
    rcases hfp with ⟨hm, hp⟩
    exact ⟨List.mem_of_find?_eq_some hf, eq_of_beq hm, Or.inl (eq_of_beq hp)⟩
  | none =>
    rw [hf] at h
    rcases matchParamRoutes_sound h with ⟨hmem, hm, hb, hx⟩
    exact ⟨hmem, hm, Or.inr ⟨hb, hx⟩⟩

/-- C10: a request is dispatched to a discovered FastAPI route only if the
route's HTTP method equals the request's and either the route path equals
the normalised request path exactly, or the route is a parameterised
template (contains `\x7b`) whose `extractPathParams` matches the path
(same segment count, every static segment equal); and whenever no route
matches, the response is HTTP 404 with a JSON body naming the request's
method and path. -/
theorem handleRequest_dispatch (routes : List Route) (method rawPath : String) :
    (∀ r ps, handleRequest routes method rawPath = .dispatched r ps →
      r ∈ routes ∧ r.method = method ∧
        (r.path = normalizePath rawPath ∨
          (r.path.data.contains lbrace = true ∧
            extractPathParams r.path (normalizePath rawPath) = some ps))) ∧
    (findMatchingRoute routes method (normalizePath rawPath) = none →
      handleRequest routes method rawPath =
        .notFound 404 "Not Found"
          ("No FastAPI route found for " ++ method ++ " " ++ rawPath)) := by
  constructor
  · intro r ps h
    unfold handleRequest at h
    cases hf : findMatchingRoute routes method (normalizePath rawPath) with
    | some pr =>
      rw [hf] at h
      cases h
      exact findMatchingRoute_sound hf
    | none =>
      rw [hf] at h
      exact absurd h (by simp)
  · intro hnone
    unfold handleRequest
    rw [hnone]

/-- Routes used by the dispatch witness: a static route and a parameterised
batch route. -/
def witnessRoutes : List Route :=
  [⟨"GET", "/health"⟩, ⟨"GET", "/db/wine-batches/\x7bbatch_id\x7d"⟩]

theorem handleRequest_dispatch_witness :
    (handleRequest witnessRoutes "GET" "/db/wine-batches/abc123" =
      .dispatched ⟨"GET", "/db/wine-batches/\x7bbatch_id\x7d"⟩
        [("batch_id", "abc123")] ∧
     (⟨"GET", "/db/wine-batches/\x7bbatch_id\x7d"⟩ : Route) ∈ witnessRoutes ∧
     (Route.method ⟨"GET", "/db/wine-batches/\x7bbatch_id\x7d"⟩) = "GET" ∧
     ((Route.path ⟨"GET", "/db/wine-batches/\x7bbatch_id\x7d"⟩) =
        normalizePath "/db/wine-batches/abc123" ∨
      ((Route.path ⟨"GET", "/db/wine-batches/\x7bbatch_id\x7d"⟩).data.contains lbrace = true ∧
        extractPathParams (Route.path ⟨"GET", "/db/wine-batches/\x7bbatch_id\x7d"⟩)
          (normalizePath "/db/wine-batches/abc123") =
          some [("batch_id", "abc123")]))) ∧
    (findMatchingRoute witnessRoutes "POST" (normalizePath "/nope") = none ∧
     handleRequest witnessRoutes "POST" "/nope" =
       .notFound 404 "Not Found" "No FastAPI route found for POST /nope") :=
  ⟨⟨by decide,
    (handleRequest_dispatch witnessRoutes "GET" "/db/wine-batches/abc123").1
      ⟨"GET", "/db/wine-batches/\x7bbatch_id\x7d"⟩ [("batch_id", "abc123")]
      (by decide)⟩,
   by decide,
   (handleRequest_dispatch witnessRoutes "POST" "/nope").2 (by decide)⟩

/-! ## Claim C3: pre-commit guard -/

theorem strContains_remediation_path {paths : List String} {p : String}
    (hp : p ∈ paths) (footer : String) :
    strContains
      (paths.foldr (fun q acc => ("New column(s) in " ++ q ++ "\n") ++ acc) footer)
      p = true := by
  induction paths with
  | nil => cases hp
  | cons q qs ih =>
    rcases List.mem_cons.mp hp with he | hmem
    · subst he
      apply strContains_append_left
      apply strContains_append_left
      exact strContains_append_right _ (strContains_refl p)
    · exact strContains_append_right _ (ih hmem)

theorem strContains_remediation_footer (paths : List String) (pat footer : String)
    (hf : strContains footer pat = true) :
    strContains
      (paths.foldr (fun q acc => ("New column(s) in " ++ q ++ "\n") ++ acc) footer)
      pat = true := by
  induction paths with
  | nil => exact hf
  | cons q qs ih => exact strContains_append_right _ ih

/-- C3: whenever the changed-file set contains a model file whose diff
introduces a new column and no migration file is changed, the guard blocks
the commit (non-zero exit) and its remediation names the changed file and
suggests `revision --autogenerate`; and a commit touching neither model nor
migration files is allowed without running the migration checks. -/
theorem guard_blocks_model_only_changes :
    (∀ (files : List ChangedFile) (f : ChangedFile), f ∈ files →
      isModelFile f.path = true → f.newColumn = true →
      (∀ g ∈ files, isMigrationFile g.path = false) →
      ∃ msg, guardDecision files = .blocked 1 msg ∧
        strContains msg f.path = true ∧
        strContains msg "revision --autogenerate" = true) ∧
    (∀ files : List ChangedFile,
      (∀ f ∈ files, isModelFile f.path = false ∧ isMigrationFile f.path = false) →
      guardDecision files = .allow) := by
  constructor
  · intro files f hf hm hc hnomig
    have hmem : f ∈ files.filter (fun g => isModelFile g.path && hasModelChange g) := by
      refine List.mem_filter.mpr ⟨hf, ?_⟩
      simp [hm, hasModelChange, hc]
    have hne : files.filter (fun g => isModelFile g.path && hasModelChange g) ≠ [] :=
      List.ne_nil_of_mem hmem
    have hie : (files.filter (fun g => isModelFile g.path && hasModelChange g)).isEmpty
        = false := by
      cases hi : (files.filter (fun g => isModelFile g.path && hasModelChange g)).isEmpty with
      | false => rfl
      | true => exact absurd (List.isEmpty_iff.mp hi) hne
    have hanyf : files.any (fun g => isMigrationFile g.path) = false := by
      rw [List.any_eq_false]
      intro g hg
      rw [hnomig g hg]
      simp
    refine ⟨remediationMessage
      ((files.filter (fun g => isModelFile g.path && hasModelChange g)).map
        (fun g => g.path)), ?_, ?_, ?_⟩
    · simp only [guardDecision]
      rw [hie, hanyf]
      rfl
    · apply strContains_append_right
      exact strContains_remediation_path
        (List.mem_map_of_mem (fun g => g.path) hmem) _
    · apply strContains_append_right
      exact strContains_remediation_footer _ _ _ (by decide)
  · intro files hno
    have h1 : files.filter (fun g => isModelFile g.path && hasModelChange g) = [] := by
      rw [List.filter_eq_nil_iff]
      intro g hg
      simp [(hno g hg).1]
    have h2 : files.any (fun g => isMigrationFile g.path) = false := by
      rw [List.any_eq_false]
      intro g hg
      rw [(hno g hg).2]
      simp
    simp [guardDecision, h1, h2]

/-- Changed-file sets for the guard witness: a model change adding
`wine_batches.fiken_sync_status` without a migration, and an unrelated
documentation change. -/
def modelOnlyChange : ChangedFile :=
  ⟨"amplify/functions/db-migrations/models/wine_batch.py", false, true, false, false⟩

theorem guard_blocks_model_only_changes_witness :
    (modelOnlyChange ∈ [modelOnlyChange] ∧
     isModelFile modelOnlyChange.path = true ∧
     modelOnlyChange.newColumn = true ∧
     (∃ msg, guardDecision [modelOnlyChange] = .blocked 1 msg ∧
       strContains msg modelOnlyChange.path = true ∧
       strContains msg "revision --autogenerate" = true)) ∧
    guardDecision [⟨"README.md", false, false, false, false⟩] = .allow :=
  ⟨⟨by decide, by decide, by decide,
    guard_blocks_model_only_changes.1 [modelOnlyChange] modelOnlyChange
      (by decide) (by decide) (by decide)
      (fun g hg => by
        rw [List.mem_singleton.mp hg]
        decide)⟩,
   guard_blocks_model_only_changes.2 [⟨"README.md", false, false, false, false⟩]
     (fun f hf => by
       rw [List.mem_singleton.mp hf]
       exact ⟨by decide, by decide⟩)⟩

/-! ## Claim C4: transactional migration apply -/

theorem runStmts_error_mem {sch : Schema} {stmts : List MigStmt}
    {n : String} {p : Schema} (h : runStmts sch stmts = .error (n, p)) :
    n ∈ stmts.map MigStmt.stmtName := by
  induction stmts generalizing sch with
  | nil => exact absurd h (by simp [runStmts])
  | cons st rest ih =>
    unfold runStmts at h
    cases hr : st.run sch with
    | some sch2 =>
      rw [hr] at h
      exact List.mem_cons_of_mem _ (ih h)
    | none =>
      rw [hr] at h
      cases h
      exact List.mem_cons_self _ _

theorem applyRevision_error {s : MigState} {r : Revision} {e : ApplyError}
    (h : applyRevision s r = .error e) :
    e.lastGoodRevision = s.currentRevision ∧ e.failedRevision = r.revId ∧
      e.failingStatement ∈ r.stmts.map MigStmt.stmtName := by
  unfold applyRevision at h
  cases hr : runStmts s.schema r.stmts with
  | ok sch2 =>
    rw [hr] at h
    cases h
  | error pr =>
    obtain ⟨n, p⟩ := pr
    rw [hr] at h
    cases h
    exact ⟨rfl, rfl, runStmts_error_mem hr⟩

/-- C4: when applying a revision chain fails partway, the resulting state is
exactly the last committed one: its recorded revision id equals the error's
last-good revision id (a revision id is recorded only after its whole
statement list succeeds), and the surfaced error names the failing revision
and the failing statement inside it. -/
theorem applyChain_failure_preserves_revision
    (s : MigState) (revs : List Revision) (out : MigState) (e : ApplyError)
    (h : applyChain s revs = (out, some e)) :
    out.currentRevision = e.lastGoodRevision ∧
      ∃ r ∈ revs, r.revId = e.failedRevision ∧
        e.failingStatement ∈ r.stmts.map MigStmt.stmtName := by
  induction revs generalizing s with
  | nil =>
    unfold applyChain at h
    cases h
  | cons r rest ih =>
    unfold applyChain at h
    cases ha : applyRevision s r with
    | ok s2 =>
      rw [ha] at h
      rcases ih s2 h with ⟨h1, rr, hrr, h2⟩
      exact ⟨h1, rr, List.mem_cons_of_mem _ hrr, h2⟩
    | error e2 =>
      rw [ha] at h
      cases h
      rcases applyRevision_error ha with ⟨h1, h2, h3⟩
      exact ⟨h1.symm, r, List.mem_cons_self _ _, h2.symm, h3⟩

/-- Statements and revisions for the transactional-apply witness:
the second revision fails on its second statement. -/
def demoCreateStmt : MigStmt :=
  ⟨"create_table wines_demo", fun sch => some (("wines_demo", ["id"]) :: sch)⟩

/-- A statement whose execution fails. -/
def demoFailingStmt : MigStmt := ⟨"alter_table missing_table", fun _ => none⟩

/-- First demo revision: applies cleanly. -/
def demoRev1 : Revision := ⟨"a370e09fe716", [demoCreateStmt]⟩

/-- Second demo revision: fails on its second statement. -/
def demoRev2 : Revision := ⟨"56fcd8e31e43", [demoCreateStmt, demoFailingStmt]⟩

theorem applyChain_failure_witness :
    applyChain ⟨[], none⟩ [demoRev1, demoRev2] =
      (⟨[("wines_demo", ["id"])], some "a370e09fe716"⟩,
       some ⟨"56fcd8e31e43", "alter_table missing_table", some "a370e09fe716"⟩) ∧
    (⟨[("wines_demo", ["id"])], some "a370e09fe716"⟩ : MigState).currentRevision =
      (⟨"56fcd8e31e43", "alter_table missing_table",
        some "a370e09fe716"⟩ : ApplyError).lastGoodRevision ∧
    ∃ r ∈ [demoRev1, demoRev2], r.revId = "56fcd8e31e43" ∧
      "alter_table missing_table" ∈ r.stmts.map MigStmt.stmtName :=
  ⟨rfl,
   (applyChain_failure_preserves_revision ⟨[], none⟩ [demoRev1, demoRev2]
      ⟨[("wines_demo", ["id"])], some "a370e09fe716"⟩
      ⟨"56fcd8e31e43", "alter_table missing_table", some "a370e09fe716"⟩ rfl).1,
   (applyChain_failure_preserves_revision ⟨[], none⟩ [demoRev1, demoRev2]
      ⟨[("wines_demo", ["id"])], some "a370e09fe716"⟩
      ⟨"56fcd8e31e43", "alter_table missing_table", some "a370e09fe716"⟩ rfl).2⟩

/-! ## Claim C5: Lambda compatibility checker -/

/-- C5: a manifest containing `psycopg2` is reported blocked with suggested
replacement `psycopg2-binary`; any scan whose blocked list is non-empty
fails the overall check; and a scan with an empty blocked list passes
regardless of warnings (warnings are advisory only). -/
theorem compat_check_psycopg2_blocked :
    (∀ reqs : List String, "psycopg2" ∈ reqs →
      ("psycopg2", "psycopg2-binary") ∈ (scanRequirements reqs).blocked ∧
      compatCheckPasses reqs = false) ∧
    (∀ reqs : List String, (scanRequirements reqs).blocked ≠ [] →
      compatCheckPasses reqs = false) ∧
    (∀ reqs : List String, (scanRequirements reqs).blocked = [] →
      compatCheckPasses reqs = true) := by
  have hfail : ∀ reqs : List String, (scanRequirements reqs).blocked ≠ [] →
      compatCheckPasses reqs = false := by
    intro reqs hne
    unfold compatCheckPasses
    cases hi : (scanRequirements reqs).blocked.isEmpty with
    | false => rfl
    | true => exact absurd (List.isEmpty_iff.mp hi) hne
  refine ⟨?_, hfail, ?_⟩
  · intro reqs hmem
    have hb : ("psycopg2", "psycopg2-binary") ∈ (scanRequirements reqs).blocked := by
      unfold scanRequirements
      exact List.mem_filterMap.mpr ⟨"psycopg2", hmem, rfl⟩
    exact ⟨hb, hfail reqs (List.ne_nil_of_mem hb)⟩
  · intro reqs hempty
    simp [compatCheckPasses, hempty]

theorem compat_check_psycopg2_blocked_witness :
    ("psycopg2" ∈ ["psycopg2", "numpy"] ∧
     ("psycopg2", "psycopg2-binary") ∈
       (scanRequirements ["psycopg2", "numpy"]).blocked ∧
     compatCheckPasses ["psycopg2", "numpy"] = false) ∧
    ((scanRequirements ["numpy"]).blocked = [] ∧
     (scanRequirements ["numpy"]).warnings = ["numpy"] ∧
     compatCheckPasses ["numpy"] = true) :=
  ⟨⟨by decide,
    (compat_check_psycopg2_blocked.1 ["psycopg2", "numpy"] (by decide)).1,
    (compat_check_psycopg2_blocked.1 ["psycopg2", "numpy"] (by decide)).2⟩,
   ⟨by decide, by decide,
    compat_check_psycopg2_blocked.2.2 ["numpy"] (by decide)⟩⟩
